import Mathlib

/-!
Verification development for the exchange-latency explorer
(`src/main.py`, `src/config.py`).

The Python program is embedded shallowly:

* External effects (SSH connections, SFTP listings, subprocess runs,
  the filesystem) are modelled by environment values that record, per
  call, which outcome the outside world produced.  Exceptions raised by
  a call are one of those outcomes; the embedding then follows exactly
  the `try`/`except`/`finally` structure of the source.
* Wall-clock time is a `Nat` counter: every SSH connect-and-check cycle
  carries the duration `d` it consumed, and the `time.sleep(5)` /
  `time.sleep(10)` calls add 5 resp. 10 units, so the
  `while time.time() - start_time < timeout` loop of
  `ssh_wait_for_file` becomes a guarded recursion over that counter.
* The orchestrator (`main`) is embedded as a function producing the
  list of per-region outcomes together with a trace of the external
  operations it invoked, in order.
-/

namespace ExchangeLatency

/-! ### `ssh_wait_for_file` (src/main.py lines 34-92)

One iteration of the polling loop performs
`client.connect(...)`, `client.open_sftp()` and
`sftp.listdir(remote_path)`.  The possible outcomes of one such
connect-and-check cycle, each carrying the wall-clock duration `d` the
cycle itself consumed:

* `found d`      — listing succeeded and `filename` is in it
                   (`return True`);
* `absent d`     — listing succeeded, `filename` not in it
                   (`time.sleep(5)` and retry);
* `sshError d`   — `AuthenticationException`/`SSHException` raised by
                   the cycle (`time.sleep(10)` and retry);
* `dirMissing d` — `FileNotFoundError` raised by `sftp.listdir`
                   (`return False` at once);
* `listError d`  — any other exception raised while listing: it is NOT
                   caught by the inner handlers, escapes the `while`
                   loop and is caught by the function's outermost
                   `except Exception` (`return False` at once). -/
inductive AttemptOutcome where
  | found (d : Nat)
  | absent (d : Nat)
  | sshError (d : Nat)
  | dirMissing (d : Nat)
  | listError (d : Nat)
deriving DecidableEq, Repr

/-- How `ssh_wait_for_file` returned, distinguishing the four
`return` sites of the source (the boolean it returns is
`foundFile ↦ True`, everything else `↦ False`). -/
inductive PollResult where
  | foundFile
  | timedOut
  | dirMissing
  | outerError
  | fuelOut
deriving DecidableEq, Repr

/-- The arguments one connect-and-check cycle depends on: the
`client.connect` parameters and the `sftp.listdir` parameters. -/
structure ConnCheck where
  hostname : String
  username : String
  key : Nat
  remotePath : String
  filename : String
deriving DecidableEq, Repr

/-- The outside world seen by `ssh_wait_for_file`: the key files on
disk (`paramiko.RSAKey.from_private_key_file`, which may raise), and
the outcome of the `i`-th connect-and-check cycle. -/
structure SshEnv where
  loadKey : String → Except String Nat
  attempts : Nat → ConnCheck → AttemptOutcome

/-- The `while time.time() - start_time < timeout` loop of
`ssh_wait_for_file`, with `t` the elapsed time since `start_time` and
`i` the index of the next connect-and-check cycle.  `fuel` is a
structural-recursion bound only: it is consulted strictly after the
`t < timeout` guard, so with `timeout ≤ fuel + t` it never runs out
(`sshPollLoopF_ne_fuelOut` below). -/
def sshPollLoopF (check : Nat → AttemptOutcome) (timeout : Nat) :
    Nat → Nat → Nat → PollResult × Nat
  | fuel, i, t =>
    if t < timeout then
      match fuel, check i with
      | 0, _ => (.fuelOut, t)
      | _ + 1, .found d => (.foundFile, t + d)
      | fuel + 1, .absent d => sshPollLoopF check timeout fuel (i + 1) (t + d + 5)
      | fuel + 1, .sshError d => sshPollLoopF check timeout fuel (i + 1) (t + d + 10)
      | _ + 1, .dirMissing d => (.dirMissing, t + d)
      | _ + 1, .listError d => (.outerError, t + d)
    else (.timedOut, t)

/-- `ssh_wait_for_file(hostname, username, private_key_path,
remote_path, filename, timeout)`.  Faithful to the source: the key is
loaded from the hardcoded literal path `"blog_id_rsa"` — the
`private_key_path` parameter is never read — and a failure of the key
load is caught by the outermost handler (`return False`).  Returns the
result together with the elapsed time at return. -/
def ssh_wait_for_file (hostname username private_key_path remote_path filename : String)
    (env : SshEnv) (timeout : Nat) : PollResult × Nat :=
  match env.loadKey "blog_id_rsa" with
  | .error _ => (.outerError, 0)
  | .ok key =>
      sshPollLoopF
        (fun i => env.attempts i ⟨hostname, username, key, remote_path, filename⟩)
        timeout (timeout + 1) 0 0

theorem sshPollLoopF_ne_fuelOut (check : Nat → AttemptOutcome) (timeout : Nat) :
    ∀ fuel i t, timeout ≤ fuel + t →
      (sshPollLoopF check timeout fuel i t).1 ≠ PollResult.fuelOut := by
  intro fuel
  induction fuel with
  | zero =>
      intro i t h
      unfold sshPollLoopF
      rw [if_neg (by omega)]
      simp
  | succ n ih =>
      intro i t h
      unfold sshPollLoopF
      by_cases ht : t < timeout
      · rw [if_pos ht]
        cases hc : check i with
        | found d => simp
        | absent d => exact ih (i + 1) (t + d + 5) (by omega)
        | sshError d => exact ih (i + 1) (t + d + 10) (by omega)
        | dirMissing d => simp
        | listError d => simp
      · rw [if_neg ht]; simp

/-! ### Configuration (src/config.py) -/

/-- `AWSConfig` dataclass of `src/config.py`. -/
structure AWSConfig where
  regions : List String
  instance_type : String
  ami_mapping : List (String × String)
  ssh_username : String
  key_pair_name : String
  private_key_path : String
  access_key : String
  secret_key : String
deriving DecidableEq, Repr

/-- `ExchangeConfig` dataclass of `src/config.py`. -/
structure ExchangeConfig where
  api_keys : List (String × List (String × String))
deriving DecidableEq, Repr

/-- `Config` dataclass of `src/config.py`. -/
structure Config where
  aws : AWSConfig
  exchanges : ExchangeConfig
  output_dir : String
deriving DecidableEq, Repr

/-- The parsed YAML mapping `load_config` reads, flattened: `none`
means the corresponding key is absent from the file (so indexing it
raises `KeyError`), `some v` that it is present with value `v`.
`instance_type` and `output_dir` are read with `.get(..., default)`
and so never raise. -/
structure RawConfig where
  regions : Option (List String)
  instance_type : Option String
  ami_mapping : Option (List (String × String))
  key_pair_name : Option String
  private_key_path : Option String
  access_key : Option String
  secret_key : Option String
  api_keys : Option (List (String × List (String × String)))
  output_dir : Option String
deriving DecidableEq, Repr

/-- `load_config` (src/config.py lines 25-50).  A `KeyError` on a
required key is modelled as `Except.error`; it propagates out of
`load_config` uncaught. -/
def load_config (raw : RawConfig) : Except String Config := do
  let regions ← (raw.regions).elim (Except.error "KeyError: regions") Except.ok
  let instance_type := raw.instance_type.getD "t2.micro"
  let ami_mapping ← (raw.ami_mapping).elim (Except.error "KeyError: ami_mapping") Except.ok
  let key_pair_name ← (raw.key_pair_name).elim (Except.error "KeyError: key_pair_name") Except.ok
  let private_key_path ←
    (raw.private_key_path).elim (Except.error "KeyError: private_key_path") Except.ok
  let access_key ← (raw.access_key).elim (Except.error "KeyError: access_key") Except.ok
  let secret_key ← (raw.secret_key).elim (Except.error "KeyError: secret_key") Except.ok
  let api_keys ← (raw.api_keys).elim (Except.error "KeyError: api_keys") Except.ok
  Except.ok
    { aws :=
        { regions := regions
          instance_type := instance_type
          ami_mapping := ami_mapping
          ssh_username := "ubuntu"
          key_pair_name := key_pair_name
          private_key_path := private_key_path
          access_key := access_key
          secret_key := secret_key }
      exchanges := { api_keys := api_keys }
      output_dir := raw.output_dir.getD "./results" }

/-- `validate_config` (src/config.py lines 52-57): raises `ValueError`
on a falsy (empty) region list or AMI mapping.  Note: no caller in the
repository ever invokes it. -/
def validate_config (config : Config) : Except String Unit :=
  if config.aws.regions.isEmpty then Except.error "No AWS regions specified"
  else if config.aws.ami_mapping.isEmpty then Except.error "No AMI mapping provided"
  else Except.ok ()

/-! ### `RegionDeployment.copy_results` (src/main.py lines 188-227) -/

/-- The outside world seen by `copy_results`: key files on disk,
`client.connect` (which returns a session handle or raises — `none`),
and `sftp.get` (which succeeds or raises — `false`).  `connect` takes
the hostname, username and key actually passed by the source. -/
structure CopyEnv where
  loadKey : String → Except String Nat
  connect : String → String → Nat → Option Nat
  get : Nat → String → String → Bool
  now : String

/-- `RegionDeployment.copy_results`.  Faithful to the source: the key
is loaded from the literal `"blog_id_rsa"` and the connection is made
with the literal username `"ubuntu"` — `config.aws.ssh_username` is
never read here; only `config.output_dir` and the region enter the
local path `results_<region>_<timestamp>.json`. -/
def copy_results (config : Config) (region hostname : String) (env : CopyEnv) : Bool :=
  match env.loadKey "blog_id_rsa" with
  | .error _ => false
  | .ok key =>
      match env.connect hostname "ubuntu" key with
      | none => false
      | some sftp =>
          env.get sftp "/tmp/exchange_stats.json"
            (config.output_dir ++ "/results_" ++ region ++ "_" ++ env.now ++ ".json")

/-- `RegionDeployment.wait_for_results` (src/main.py lines 177-186):
passes `config.aws.ssh_username` and `config.aws.private_key_path` to
`ssh_wait_for_file`, with remote path `/tmp`, filename
`exchange_stats.json` and timeout 300. -/
def wait_for_results (config : Config) (hostname : String) (env : SshEnv) :
    PollResult × Nat :=
  ssh_wait_for_file hostname config.aws.ssh_username config.aws.private_key_path
    "/tmp" "exchange_stats.json" env 300

/-! ### The per-region lifecycle and the orchestrator (src/main.py
lines 95-317)

`main`'s `for region in config.aws.regions` loop body is a
`try`/`except Exception`/`finally` block.  Each external call the
body makes is given an outcome by a `RegionEnv`; exceptions are
explicit outcomes.  Python semantics worth noting: `continue` inside
the `try` block still executes the `finally` block, so every path
through the body reaches `cleanup_resources`. -/

/-- Outcome of one `execute_terraform` call (src/main.py lines
128-145): `ok` — zero exit (`return True`); `err` —
`CalledProcessError`, caught inside `execute_terraform`
(`return False`); `exn` — any other exception from `subprocess.run`
(e.g. the working directory is gone), which `execute_terraform` does
not catch and which propagates to its caller. -/
inductive StageRes where
  | ok
  | err
  | exn
deriving DecidableEq, Repr

/-- Outcome of `get_instance_ip` (src/main.py lines 147-175): `ip s` —
parsed JSON value `s` (possibly the empty string, which the caller's
`if not instance_ip` treats as falsy); `noIp` — non-zero exit, empty
stdout, or a parse error, all caught inside and returned as `None`;
`exn` — any other exception, uncaught, propagating to `main`'s
per-region handler. -/
inductive IpRes where
  | ip (s : String)
  | noIp
  | exn
deriving DecidableEq, Repr

/-- The outcomes the outside world hands one region's lifecycle, per
call site of `main`'s loop body.  `prepareOk = false` means
`prepare_terraform_files` raised (it returns nothing, so any failure
is an exception).  `waitOk`/`copyOk` are the booleans returned by
`wait_for_results`/`copy_results`: both catch every exception
internally and return `bool` (see their embeddings above).
`rmtreeOk = false` means `shutil.rmtree` raised (caught inside
`cleanup_resources`, directory not removed). -/
structure RegionEnv where
  prepareOk : Bool
  initRes : StageRes
  applyRes : StageRes
  ipRes : IpRes
  waitOk : Bool
  copyOk : Bool
  destroyRes : StageRes
  rmtreeOk : Bool
deriving DecidableEq, Repr

/-- Trace events: the external operations the orchestrator invokes, in
order.  `rmtree r` is recorded only when the removal of region `r`'s
terraform directory actually succeeds. -/
inductive Ev where
  | prepare (region : String)
  | tfInit (region : String)
  | tfApply (region : String)
  | queryIp (region : String)
  | waitForFile (region : String)
  | copyResults (region : String)
  | destroy (region : String)
  | rmtree (region : String)
  | interSleep (seconds : Nat)
  | report
deriving DecidableEq, Repr

/-- The `try` block of `main`'s loop body (src/main.py lines 284-304):
prepare, `init`, `apply -auto-approve`, `get_instance_ip`,
`wait_for_results`, `copy_results`.  Returns the `success` flag as set
by the body together with the operations invoked.  A stage's `err`
outcome takes the `continue` branch and an `exn` outcome is caught by
the `except Exception` handler; both leave `success = False` and fall
through to the `finally` block, so they produce identical traces. -/
def regionTryBody (env : RegionEnv) (r : String) : Bool × List Ev :=
  if ¬env.prepareOk then (false, [Ev.prepare r])
  else
    match env.initRes with
    | .err | .exn => (false, [Ev.prepare r, Ev.tfInit r])
    | .ok =>
        match env.applyRes with
        | .err | .exn => (false, [Ev.prepare r, Ev.tfInit r, Ev.tfApply r])
        | .ok =>
            match env.ipRes with
            | .noIp | .exn =>
                (false, [Ev.prepare r, Ev.tfInit r, Ev.tfApply r, Ev.queryIp r])
            | .ip s =>
                if s = "" then
                  (false, [Ev.prepare r, Ev.tfInit r, Ev.tfApply r, Ev.queryIp r])
                else if env.waitOk then
                  if env.copyOk then
                    (true, [Ev.prepare r, Ev.tfInit r, Ev.tfApply r, Ev.queryIp r,
                            Ev.waitForFile r, Ev.copyResults r])
                  else
                    (false, [Ev.prepare r, Ev.tfInit r, Ev.tfApply r, Ev.queryIp r,
                             Ev.waitForFile r, Ev.copyResults r])
                else
                  (false, [Ev.prepare r, Ev.tfInit r, Ev.tfApply r, Ev.queryIp r,
                           Ev.waitForFile r])

/-- `RegionDeployment.cleanup_resources` (src/main.py lines 229-244):
runs `execute_terraform "destroy -auto-approve"` once; on `False` it
returns `False` without touching the directory; on an uncaught
exception from `execute_terraform` its own `except Exception` returns
`False`; on success it attempts `shutil.rmtree` (whose failure is
caught and only warned about) and returns `True`. -/
def cleanup_resources (env : RegionEnv) (r : String) : Bool × List Ev :=
  match env.destroyRes with
  | .err | .exn => (false, [Ev.destroy r])
  | .ok =>
      if env.rmtreeOk then (true, [Ev.destroy r, Ev.rmtree r])
      else (true, [Ev.destroy r])

/-- One full pass of `main`'s loop body for region `r`: the `try`
block, then the `finally` block (`cleanup_resources` plus the
success/failure message).  Returns the region's `success` flag (which
the source does not downgrade when cleanup fails — cleanup failure
only prints a warning) and the region's full trace. -/
def runRegion (env : RegionEnv) (r : String) : Bool × List Ev :=
  let body := regionTryBody env r
  let cleanup := cleanup_resources env r
  (body.1, body.2 ++ cleanup.2)

/-- Number of `destroy` invocations in a trace. -/
def destroyCount (tr : List Ev) : Nat :=
  tr.countP fun e => match e with | Ev.destroy _ => true | _ => false

/-- Whether `main`'s `try` block for this region exits through one of
its three `continue` statements (src/main.py lines 287, 290, 294):
`init` returning `False`, `apply` returning `False`, or a falsy
instance IP.  `continue` runs the `finally` block and then jumps to
the next iteration, skipping the inter-region sleep at the bottom of
the loop body.  Exceptions do not take these paths: they are caught by
the `except Exception` handler and fall through to the sleep guard,
and so does a failure of `wait_for_results` or `copy_results`. -/
def bodyContinues (env : RegionEnv) : Bool :=
  env.prepareOk &&
    match env.initRes with
    | .err => true
    | .exn => false
    | .ok =>
        match env.applyRes with
        | .err => true
        | .exn => false
        | .ok =>
            match env.ipRes with
            | .noIp => true
            | .exn => false
            | .ip s => s == ""

/-- The `for region in config.aws.regions` loop of `main` (src/main.py
lines 279-316): regions in configured order, one `runRegion` each,
and `time.sleep(30)` after every region whose body did not exit via
`continue` (`continue` skips the statements after the
`try`/`finally`) and that is not equal (by value) to
`config.aws.regions[-1]`.  `i` indexes `envs`, `last` is
`regions[-1]` (only ever compared against when the loop body runs, so
passing a default for the empty list is harmless). -/
def processRegions (envs : Nat → RegionEnv) (last : String) :
    Nat → List String → List (String × Bool) × List Ev
  | _, [] => ([], [])
  | i, r :: rest =>
      let outcome := runRegion (envs i) r
      let sleepTr :=
        if bodyContinues (envs i) then []
        else if r ≠ last then [Ev.interSleep 30] else []
      let restOut := processRegions envs last (i + 1) rest
      ((r, outcome.1) :: restOut.1, outcome.2 ++ sleepTr ++ restOut.2)

/-- `main` after a successful config load (src/main.py lines 276-317):
report-only mode skips straight to `generate_report`; otherwise all
regions are processed and `generate_report` runs at the end. -/
def mainWithConfig (report_only : Bool) (config : Config) (envs : Nat → RegionEnv) :
    List (String × Bool) × List Ev :=
  if report_only then ([], [Ev.report])
  else
    let run := processRegions envs (config.aws.regions.getLastD "") 0 config.aws.regions
    (run.1, run.2 ++ [Ev.report])

/-- `main` (src/main.py lines 271-317): `load_config` first — a
`KeyError` there propagates and kills the process before any region
work — then `mainWithConfig`.  `validate_config` is never called. -/
def main (report_only : Bool) (raw : RawConfig) (envs : Nat → RegionEnv) :
    Except String (List (String × Bool) × List Ev) :=
  (load_config raw).map fun config => mainWithConfig report_only config envs

/-- Modelled from the spec: the inter-region schedule §5 and §4.5
describe — each region's full lifecycle trace in configured order,
with one fixed 30-unit delay between consecutive regions' completions
and none after the last.  Used as the comparison point for the
ordering/delay claim. -/
def specSchedule (envs : Nat → RegionEnv) : Nat → List String → List Ev
  | _, [] => []
  | i, [r] => (runRegion (envs i) r).2
  | i, r :: r' :: rest =>
      (runRegion (envs i) r).2 ++ [Ev.interSleep 30] ++
        specSchedule envs (i + 1) (r' :: rest)

/-- Number of inter-region sleeps in a trace. -/
def sleepCount (tr : List Ev) : Nat :=
  tr.countP fun e => match e with | Ev.interSleep _ => true | _ => false

/-- A concrete all-successful region environment, used in concrete
instantiations below. -/
def envAllOk : RegionEnv :=
  { prepareOk := true
    initRes := .ok
    applyRes := .ok
    ipRes := .ip "1.2.3.4"
    waitOk := true
    copyOk := true
    destroyRes := .ok
    rmtreeOk := true }

/-! ### Helper lemmas -/

theorem destroyCount_append (l1 l2 : List Ev) :
    destroyCount (l1 ++ l2) = destroyCount l1 + destroyCount l2 :=
  List.countP_append _ _ _

theorem destroyCount_regionTryBody (env : RegionEnv) (r : String) :
    destroyCount (regionTryBody env r).2 = 0 := by
  rcases env with ⟨p, ini, ap, ipr, w, c, d, rt⟩
  cases p <;> cases ini <;> cases ap <;> cases w <;> cases c <;> cases ipr <;>
    simp [regionTryBody, destroyCount] <;> split <;> simp

theorem destroyCount_cleanup_resources (env : RegionEnv) (r : String) :
    destroyCount (cleanup_resources env r).2 = 1 := by
  rcases env with ⟨p, ini, ap, ipr, w, c, d, rt⟩
  cases d <;> cases rt <;> simp [cleanup_resources, destroyCount]

theorem sshPollLoopF_sleep_bound (check : Nat → AttemptOutcome) (timeout : Nat)
    (h : ∀ i, check i = AttemptOutcome.absent 0 ∨ check i = AttemptOutcome.sshError 0) :
    ∀ fuel i t, timeout ≤ fuel + t → t < timeout + 10 →
      (sshPollLoopF check timeout fuel i t).1 = PollResult.timedOut ∧
        (sshPollLoopF check timeout fuel i t).2 < timeout + 10 := by
  intro fuel
  induction fuel with
  | zero =>
      intro i t hf ht
      unfold sshPollLoopF
      rw [if_neg (by omega)]
      exact ⟨rfl, ht⟩
  | succ n ih =>
      intro i t hf ht
      by_cases htt : t < timeout
      · rcases h i with hc | hc
        · unfold sshPollLoopF
          rw [if_pos htt, hc]
          exact ih (i + 1) (t + 0 + 5) (by omega) (by omega)
        · unfold sshPollLoopF
          rw [if_pos htt, hc]
          exact ih (i + 1) (t + 0 + 10) (by omega) (by omega)
      · unfold sshPollLoopF
        rw [if_neg htt]
        exact ⟨rfl, ht⟩

theorem processRegions_map_fst (envs : Nat → RegionEnv) (last : String) :
    ∀ (regions : List String) (i : Nat),
      (processRegions envs last i regions).1.map Prod.fst = regions
  | [], _ => rfl
  | r :: rest, i => by
      simp [processRegions, processRegions_map_fst envs last rest (i + 1)]

theorem processRegions_eq_specSchedule (envs : Nat → RegionEnv) (last : String) :
    ∀ (rest : List String) (r : String) (i : Nat),
      (r :: rest).getLast? = some last →
      (∀ a ∈ (r :: rest).dropLast, a ≠ last) →
      (∀ j, j + 1 < (r :: rest).length → bodyContinues (envs (i + j)) = false) →
      (processRegions envs last i (r :: rest)).2 = specSchedule envs i (r :: rest)
  | [], r, i, hl, _, _ => by
      have hr : r = last := by simpa using hl
      subst hr
      simp [processRegions, specSchedule]
  | r' :: rest, r, i, hl, hd, hcont => by
      rw [List.getLast?_cons_cons] at hl
      have hne : r ≠ last := by
        refine hd r ?_
        rw [List.dropLast_cons₂]
        exact List.mem_cons_self _ _
      have hd2 : ∀ a ∈ (r' :: rest).dropLast, a ≠ last := by
        intro a ha
        refine hd a ?_
        rw [List.dropLast_cons₂]
        exact List.mem_cons_of_mem _ ha
      have hcont0 : bodyContinues (envs i) = false := by
        have h0 := hcont 0 (by simp)
        simpa using h0
      have hcont2 : ∀ j, j + 1 < (r' :: rest).length →
          bodyContinues (envs (i + 1 + j)) = false := by
        intro j hj
        have hs := hcont (j + 1) (by simp only [List.length_cons] at hj ⊢; omega)
        rw [show i + 1 + j = i + (j + 1) by omega]
        exact hs
      have ih := processRegions_eq_specSchedule envs last rest r' (i + 1) hl hd2 hcont2
      show (runRegion (envs i) r).2 ++
            (if bodyContinues (envs i) then []
             else if r ≠ last then [Ev.interSleep 30] else []) ++
            (processRegions envs last (i + 1) (r' :: rest)).2 =
          specSchedule envs i (r :: r' :: rest)
      rw [hcont0, if_neg (by simp), if_pos hne, ih]
      rfl

/-! ### Claims -/

/-- Claim C1: every region processed in a run invokes the
infrastructure destroy operation exactly once per lifecycle — for
every combination of outcomes of preparation, `init`, `apply`,
`get_instance_ip`, `wait_for_results`, `copy_results` (including
raised exceptions) the region's trace contains exactly one `destroy`
invocation, performed by the `finally`-block cleanup before the region
is considered finished. -/
theorem destroy_invoked_exactly_once (env : RegionEnv) (r : String) :
    destroyCount (runRegion env r).2 = 1 := by
  show destroyCount ((regionTryBody env r).2 ++ (cleanup_resources env r).2) = 1
  rw [destroyCount_append, destroyCount_regionTryBody, destroyCount_cleanup_resources]

/-- Claim C2: no failure outcome of any region escapes that region's
boundary — for every environment of per-stage outcomes (exceptions
included) the orchestrator produces a captured boolean result for
every configured region, in order, and the trailing event of the run
is always report generation. -/
theorem no_failure_escapes_region_boundary (config : Config) (envs : Nat → RegionEnv) :
    (mainWithConfig false config envs).1.map Prod.fst = config.aws.regions ∧
      (mainWithConfig false config envs).2.getLast? = some Ev.report := by
  constructor
  · simp [mainWithConfig, processRegions_map_fst]
  · simp [mainWithConfig]

/-- Claim C3: the polling loop decides by the file check, not by the
clock, once an iteration has started: if an iteration is entered while
`t < timeout`, then (a) a check that finds the file succeeds at
elapsed time `t + d` even when `t + d > timeout`, and (b) a check that
misses the file and whose 5-unit sleep carries elapsed time to or past
`timeout` is the final attempt, after which — and only after which —
the elapsed time is evaluated and timeout is reported. -/
theorem check_counts_even_past_timeout (check : Nat → AttemptOutcome)
    (timeout fuel i t d : Nat) (h : t < timeout) :
    (check i = AttemptOutcome.found d →
      sshPollLoopF check timeout (fuel + 1) i t = (PollResult.foundFile, t + d)) ∧
    (check i = AttemptOutcome.absent d → timeout ≤ t + d + 5 →
      sshPollLoopF check timeout (fuel + 1) i t = (PollResult.timedOut, t + d + 5)) := by
  constructor
  · intro hc
    unfold sshPollLoopF
    rw [if_pos h, hc]
  · intro hc hle
    unfold sshPollLoopF
    rw [if_pos h, hc]
    show sshPollLoopF check timeout fuel (i + 1) (t + d + 5) = _
    unfold sshPollLoopF
    rw [if_neg (by omega)]

/-- Witness for C3 at a concrete input: at `timeout = 10` the
iteration entered at elapsed time 0 whose check takes 100 units still
returns success at elapsed time 100, and symmetrically for the
timeout conjunct. -/
theorem check_counts_even_past_timeout_w :
    ((fun _ : Nat => AttemptOutcome.found 100) 0 = AttemptOutcome.found 100 →
      sshPollLoopF (fun _ => AttemptOutcome.found 100) 10 11 0 0 =
        (PollResult.foundFile, 0 + 100)) ∧
    ((fun _ : Nat => AttemptOutcome.found 100) 0 = AttemptOutcome.absent 100 →
      10 ≤ 0 + 100 + 5 →
      sshPollLoopF (fun _ => AttemptOutcome.found 100) 10 11 0 0 =
        (PollResult.timedOut, 0 + 100 + 5)) :=
  check_counts_even_past_timeout (fun _ => AttemptOutcome.found 100) 10 10 0 0 100
    (by decide)

/-- Claim C4 counterexample: with `totalTimeout = 301` and every cycle
hitting the 10-unit connection-retry backoff (checks instantaneous,
the file never appearing), `ssh_wait_for_file` reports timeout only at
elapsed time 310, which is later than `totalTimeout + pollInterval
= 301 + 5`. -/
theorem waitforfile_within_timeout_plus_poll_cx :
    ssh_wait_for_file "198.51.100.7" "ubuntu" "some/key/path" "/tmp" "exchange_stats.json"
        { loadKey := fun _ => Except.ok 0, attempts := fun _ _ => AttemptOutcome.sshError 0 }
        301 =
      (PollResult.timedOut, 310) ∧ 301 + 5 < 310 := by
  exact ⟨by decide, by decide⟩

/-- Claim C4 amended: when the remote file never appears and each
cycle either misses the file (5-unit sleep) or fails to connect
(10-unit sleep), with instantaneous checks, `ssh_wait_for_file`
reports timeout strictly before elapsed time `totalTimeout + 10` —
the bound is timeout plus the longer, connection-retry interval, not
timeout plus the 5-unit poll interval. -/
theorem waitforfile_within_timeout_plus_backoff (check : Nat → AttemptOutcome)
    (timeout : Nat)
    (h : ∀ i, check i = AttemptOutcome.absent 0 ∨ check i = AttemptOutcome.sshError 0) :
    (sshPollLoopF check timeout (timeout + 1) 0 0).1 = PollResult.timedOut ∧
      (sshPollLoopF check timeout (timeout + 1) 0 0).2 < timeout + 10 :=
  sshPollLoopF_sleep_bound check timeout h (timeout + 1) 0 0 (by omega) (by omega)

/-- Witness for the amended C4 at `timeout = 7` with every check
missing the file. -/
theorem waitforfile_within_timeout_plus_backoff_w :
    (sshPollLoopF (fun _ => AttemptOutcome.absent 0) 7 8 0 0).1 = PollResult.timedOut ∧
      (sshPollLoopF (fun _ => AttemptOutcome.absent 0) 7 8 0 0).2 < 7 + 10 :=
  waitforfile_within_timeout_plus_backoff (fun _ => AttemptOutcome.absent 0) 7
    (fun _ => Or.inl rfl)

/-- Claim C5: a listing that reports the remote directory missing at
any iteration entered before the deadline makes the loop return
`dirMissing` at once — the elapsed time grows only by that cycle's own
duration `d`, with no sleep added and no further cycle run, however
much of the timeout budget remains. -/
theorem dirmissing_returns_immediately (check : Nat → AttemptOutcome)
    (timeout fuel i t d : Nat) (h : t < timeout)
    (hc : check i = AttemptOutcome.dirMissing d) :
    sshPollLoopF check timeout (fuel + 1) i t = (PollResult.dirMissing, t + d) := by
  unfold sshPollLoopF
  rw [if_pos h, hc]

/-- Witness for C5: a first-cycle missing directory returns at elapsed
time 0 with 300 units of budget left. -/
theorem dirmissing_returns_immediately_w :
    sshPollLoopF (fun _ => AttemptOutcome.dirMissing 0) 300 301 0 0 =
      (PollResult.dirMissing, 0 + 0) :=
  dirmissing_returns_immediately (fun _ => AttemptOutcome.dirMissing 0) 300 300 0 0 0
    (by decide) rfl

/-- Claim C6 counterexample: a non-SSH, non-missing-directory failure
while listing (outcome `listError`, e.g. a `PermissionError`) at
elapsed time 0 with `timeout = 300` makes `ssh_wait_for_file` return
immediately through its outermost handler instead of continuing the
polling loop until the timeout elapses. -/
theorem other_list_failure_continues_cx :
    ssh_wait_for_file "198.51.100.7" "ubuntu" "some/key/path" "/tmp" "exchange_stats.json"
        { loadKey := fun _ => Except.ok 0, attempts := fun _ _ => AttemptOutcome.listError 0 }
        300 =
      (PollResult.outerError, 0) ∧
      PollResult.outerError ≠ PollResult.timedOut ∧ (0 : Nat) < 300 := by
  exact ⟨by decide, by decide, by decide⟩

/-- Claim C6 amended: of the failures while listing, only the SSH
protocol class is logged and retried — the loop continues after a
10-unit backoff; any other failure while listing escapes the loop to
the outermost handler and the call returns failure immediately at
elapsed time `t + d`. -/
theorem list_failure_handling (check : Nat → AttemptOutcome)
    (timeout fuel i t d : Nat) (h : t < timeout) :
    (check i = AttemptOutcome.sshError d →
      sshPollLoopF check timeout (fuel + 1) i t =
        sshPollLoopF check timeout fuel (i + 1) (t + d + 10)) ∧
    (check i = AttemptOutcome.listError d →
      sshPollLoopF check timeout (fuel + 1) i t = (PollResult.outerError, t + d)) := by
  constructor
  · intro hc
    conv_lhs => unfold sshPollLoopF
    rw [if_pos h, hc]
  · intro hc
    unfold sshPollLoopF
    rw [if_pos h, hc]

/-- Witness for the amended C6 at a concrete input: a first-cycle
`listError` of duration 3 under `timeout = 10` returns
`outerError` at elapsed time 3. -/
theorem list_failure_handling_w :
    ((fun _ : Nat => AttemptOutcome.listError 3) 0 = AttemptOutcome.sshError 3 →
      sshPollLoopF (fun _ => AttemptOutcome.listError 3) 10 5 0 0 =
        sshPollLoopF (fun _ => AttemptOutcome.listError 3) 10 4 1 (0 + 3 + 10)) ∧
    ((fun _ : Nat => AttemptOutcome.listError 3) 0 = AttemptOutcome.listError 3 →
      sshPollLoopF (fun _ => AttemptOutcome.listError 3) 10 5 0 0 =
        (PollResult.outerError, 0 + 3)) :=
  list_failure_handling (fun _ => AttemptOutcome.listError 3) 10 4 0 0 3 (by decide)

/-- Claim C7 counterexample: the inter-region sleep is guarded by
`region != config.aws.regions[-1]`, a comparison by value, so in the
configuration `regions = ["a", "a"]` no 30-unit delay is inserted
between the first region's completion and the second region's start
(the code trace has zero sleeps where the spec's schedule has one). -/
theorem regions_sequential_schedule_cx :
    (processRegions (fun _ => envAllOk) (["a", "a"].getLastD "") 0 ["a", "a"]).2 ≠
        specSchedule (fun _ => envAllOk) 0 ["a", "a"] ∧
      sleepCount (processRegions (fun _ => envAllOk) (["a", "a"].getLastD "") 0 ["a", "a"]).2 = 0 ∧
      sleepCount (specSchedule (fun _ => envAllOk) 0 ["a", "a"]) = 1 := by
  exact ⟨by decide, by decide, by decide⟩

/-- Claim C7 amended: provided no region earlier in the list equals
the last configured region (in particular, whenever the region names
are pairwise distinct) and no region other than possibly the last
exits its loop body through a `continue` path (`init` failure, `apply`
failure, or a missing/empty instance IP — `continue` skips the
sleep at the bottom of the loop body), the orchestrator's trace is
exactly the spec's sequential schedule: each region's full lifecycle —
cleanup included — in configured order, with one 30-unit delay between
one region's completion and the next region's start and none after the
last. -/
theorem regions_sequential_schedule (envs : Nat → RegionEnv) (regions : List String)
    (h : ∀ a ∈ regions.dropLast, a ≠ regions.getLastD "")
    (hcont : ∀ j, j + 1 < regions.length → bodyContinues (envs j) = false) :
    (processRegions envs (regions.getLastD "") 0 regions).2 = specSchedule envs 0 regions := by
  rcases regions with _ | ⟨r, rest⟩
  · rfl
  · have hl : (r :: rest).getLast? = some ((r :: rest).getLastD "") := by
      rw [List.getLastD_eq_getLast?]
      rcases hq : (r :: rest).getLast? with _ | x
      · simp at hq
      · rfl
    refine processRegions_eq_specSchedule envs ((r :: rest).getLastD "") rest r 0 hl h ?_
    intro j hj
    simpa using hcont j hj

/-- Witness for the amended C7: two distinct regions, all stages
succeeding (so neither region's body exits via `continue`). -/
theorem regions_sequential_schedule_w :
    (processRegions (fun _ => envAllOk) (["a", "b"].getLastD "") 0 ["a", "b"]).2 =
      specSchedule (fun _ => envAllOk) 0 ["a", "b"] :=
  regions_sequential_schedule (fun _ => envAllOk) ["a", "b"] (by decide) (fun _ _ => rfl)

/-- Claim C8 counterexample: a region whose lifecycle succeeds up to
and including artifact retrieval but whose `terraform destroy` fails
ends its lifecycle with the terraform working directory still in
place: `cleanup_resources` returns `False` before ever attempting
`shutil.rmtree`. -/
theorem workdir_removed_cx :
    Ev.rmtree "us-east-1" ∉
      (runRegion
          { prepareOk := true
            initRes := .ok
            applyRes := .ok
            ipRes := .ip "1.2.3.4"
            waitOk := true
            copyOk := true
            destroyRes := .err
            rmtreeOk := true }
          "us-east-1").2 := by
  decide

/-- Claim C8 amended: the region's working directory is removed at the
end of its lifecycle exactly when the destroy step succeeded and the
removal itself did not fail; on destroy failure (or a failing
removal) the directory is left in place, whatever the earlier stages
did. -/
theorem workdir_removed_iff (env : RegionEnv) (r : String) :
    Ev.rmtree r ∈ (runRegion env r).2 ↔
      env.destroyRes = StageRes.ok ∧ env.rmtreeOk = true := by
  rcases env with ⟨p, ini, ap, ipr, w, c, d, rt⟩
  cases p <;> cases ini <;> cases ap <;> cases w <;> cases c <;> cases d <;> cases rt <;>
      cases ipr <;>
    simp [runRegion, regionTryBody, cleanup_resources] <;> split <;> simp

/-- The parsed-YAML input whose `aws.regions` key is present but holds
the empty list, every other required key being present and
well-formed. -/
def rawEmptyRegions : RawConfig :=
  { regions := some []
    instance_type := none
    ami_mapping := some [("us-east-1", "ami-0abc1234")]
    key_pair_name := some "blog-key"
    private_key_path := some "blog_id_rsa"
    access_key := some "AKIAEXAMPLE"
    secret_key := some "secretexample"
    api_keys := some []
    output_dir := none }

/-- The configuration value `load_config` produces from
`rawEmptyRegions`. -/
def cfgEmptyRegions : Config :=
  { aws :=
      { regions := []
        instance_type := "t2.micro"
        ami_mapping := [("us-east-1", "ami-0abc1234")]
        ssh_username := "ubuntu"
        key_pair_name := "blog-key"
        private_key_path := "blog_id_rsa"
        access_key := "AKIAEXAMPLE"
        secret_key := "secretexample" }
    exchanges := { api_keys := [] }
    output_dir := "./results" }

/-- Claim C9: a configuration whose `regions` entry is present but
empty is accepted by `load_config`, would be rejected by the
repository's own `validate_config` — which `main` never calls — and
`main` then runs to completion, generating the report, instead of
failing with a fatal configuration error. -/
theorem empty_regions_not_rejected :
    load_config rawEmptyRegions = Except.ok cfgEmptyRegions ∧
      validate_config cfgEmptyRegions = Except.error "No AWS regions specified" ∧
      main false rawEmptyRegions (fun _ => envAllOk) = Except.ok ([], [Ev.report]) :=
  ⟨rfl, rfl, rfl⟩

/-- Claim C10: `ssh_wait_for_file` never reads its
`private_key_path` argument (the key is loaded from the literal
`"blog_id_rsa"`), and `copy_results` never reads the configured
`ssh_username` (it connects as the literal `"ubuntu"`): two
invocations differing only in those inputs behave identically. -/
theorem hardcoded_credentials_noninterference :
    (∀ (hostname username p1 p2 remote_path filename : String) (env : SshEnv) (timeout : Nat),
        ssh_wait_for_file hostname username p1 remote_path filename env timeout =
          ssh_wait_for_file hostname username p2 remote_path filename env timeout) ∧
    (∀ (config : Config) (u1 u2 region hostname : String) (env : CopyEnv),
        copy_results { config with aws := { config.aws with ssh_username := u1 } }
            region hostname env =
          copy_results { config with aws := { config.aws with ssh_username := u2 } }
            region hostname env) :=
  ⟨fun _ _ _ _ _ _ _ _ => rfl, fun _ _ _ _ _ _ => rfl⟩

end ExchangeLatency
